import Mathlib

/-!
Verification of the decision-and-protection core of the jarvis assistant.

Shallow embedding of:
  - backend/resilience/circuit_breaker.py  (CircuitBreaker)
  - backend/resilience/rate_limiter.py     (SlidingWindowRateLimiter)
  - backend/resilience/cost_tracker.py     (CostTracker)
  - backend/llm/router.py                  (IntentRouter)
  - backend/agent.py                       (JarvisAgent interaction scheduling)

Conventions: monotonic clock readings are exact rationals passed explicitly
to each operation; Python float rounding (round(x, n)) is modelled as
round-half-up on exact rationals; Python exceptions are modelled with
Except / explicit outcome flags; the sqlite ledger is modelled as the list
of its rows.
-/

namespace Jarvis

/-- Round-half-up at one decimal place, modelling round(x, 1). -/
def round1 (q : ℚ) : ℚ := ((⌊q * 10 + 1/2⌋ : ℤ) : ℚ) / 10

/-- Round-half-up at four decimal places, modelling round(x, 4). -/
def round4 (q : ℚ) : ℚ := ((⌊q * 10000 + 1/2⌋ : ℤ) : ℚ) / 10000

/-- Round-half-up at six decimal places, modelling round(x, 6). -/
def round6 (q : ℚ) : ℚ := ((⌊q * 1000000 + 1/2⌋ : ℤ) : ℚ) / 1000000

/-! ### Circuit breaker (backend/resilience/circuit_breaker.py) -/

/-- CircuitState enum (circuit_breaker.py lines 19-22). -/
inductive CircuitState
  | CLOSED
  | OPEN
  | HALF_OPEN
deriving DecidableEq, Repr

/-- The string value of a CircuitState (the str Enum payload). -/
def CircuitState.value : CircuitState → String
  | .CLOSED => "CLOSED"
  | .OPEN => "OPEN"
  | .HALF_OPEN => "HALF_OPEN"

/-- The mutable fields of a CircuitBreaker instance (circuit_breaker.py
lines 34-44).  The asyncio lock serialises the mutating sections; each
embedded operation below corresponds to one locked critical section. -/
structure CircuitBreaker where
  name : String
  failure_threshold : ℕ
  cooldown_sec : ℚ
  state : CircuitState
  failures : ℕ
  successes_in_half_open : ℕ
  last_failure_time : ℚ
  last_state_change : ℚ
deriving DecidableEq, Repr

/-- CircuitBreaker.__init__ (lines 34-44): CLOSED, zero counters,
last_failure_time 0.0, last_state_change sampled from the clock. -/
def CircuitBreaker.init (name : String) (failure_threshold : ℕ)
    (cooldown_sec : ℚ) (now : ℚ) : CircuitBreaker :=
  ⟨name, failure_threshold, cooldown_sec, .CLOSED, 0, 0, 0, now⟩

/-- CircuitBreaker._transition (lines 113-117). -/
def CircuitBreaker.transition (cb : CircuitBreaker) (new_state : CircuitState)
    (now : ℚ) : CircuitBreaker :=
  { cb with state := new_state, last_state_change := now }

/-- CircuitBreaker._check_allowed (lines 69-86): returns whether the request
may pass and the (possibly OPEN to HALF_OPEN transitioned) breaker. -/
def CircuitBreaker.checkAllowed (cb : CircuitBreaker) (now : ℚ) :
    Bool × CircuitBreaker :=
  match cb.state with
  | .CLOSED => (true, cb)
  | .OPEN =>
      if now - cb.last_failure_time ≥ cb.cooldown_sec then
        (true, { cb.transition .HALF_OPEN now with successes_in_half_open := 0 })
      else
        (false, cb)
  | .HALF_OPEN => (true, cb)

/-- CircuitBreaker._record_success (lines 88-98).  In HALF_OPEN the source
increments successes_in_half_open and immediately zeroes it again while
transitioning to CLOSED; the net field values are kept here. -/
def CircuitBreaker.recordSuccess (cb : CircuitBreaker) (now : ℚ) :
    CircuitBreaker :=
  match cb.state with
  | .HALF_OPEN =>
      { cb.transition .CLOSED now with failures := 0, successes_in_half_open := 0 }
  | .CLOSED =>
      -- max(0, failures - 1) is natural subtraction
      { cb with failures := cb.failures - 1 }
  | .OPEN => cb

/-- CircuitBreaker._record_failure (lines 100-111). -/
def CircuitBreaker.recordFailure (cb : CircuitBreaker) (now : ℚ) :
    CircuitBreaker :=
  let cb1 := { cb with failures := cb.failures + 1, last_failure_time := now }
  match cb1.state with
  | .HALF_OPEN =>
      { cb1.transition .OPEN now with successes_in_half_open := 0 }
  | .CLOSED =>
      if cb1.failures ≥ cb1.failure_threshold then cb1.transition .OPEN now else cb1
  | .OPEN => cb1

/-- CircuitBreaker._time_until_probe (lines 119-124). -/
def CircuitBreaker.timeUntilProbe (cb : CircuitBreaker) (now : ℚ) : ℚ :=
  if cb.state ≠ .OPEN then 0
  else max 0 (cb.cooldown_sec - (now - cb.last_failure_time))

/-- Result of a wrapped call: normal return, re-raised wrapped exception, or
the CircuitOpenError fast-fail carrying the remaining cooldown. -/
inductive CallResult
  | ok
  | raised
  | circuitOpen (retry_after : ℚ)
deriving DecidableEq, Repr

/-- Outcome of CircuitBreaker.call: the result, whether the wrapped function
was invoked at all, and the breaker afterwards. -/
structure CallOutcome where
  result : CallResult
  invoked : Bool
  breaker : CircuitBreaker
deriving DecidableEq, Repr

/-- CircuitBreaker.call (lines 46-67).  The wrapped async function is
abstracted by whether it raises; t_check and t_record are the clock readings
of the admission check and of the success/failure recording. -/
def CircuitBreaker.call (cb : CircuitBreaker) (t_check t_record : ℚ)
    (func_raises : Bool) : CallOutcome :=
  let p := cb.checkAllowed t_check
  if p.1 then
    if func_raises then ⟨.raised, true, p.2.recordFailure t_record⟩
    else ⟨.ok, true, p.2.recordSuccess t_record⟩
  else
    ⟨.circuitOpen (p.2.timeUntilProbe t_check), false, p.2⟩

/-- CircuitBreaker.reset (lines 135-139): zero the counters and force CLOSED. -/
def CircuitBreaker.reset (cb : CircuitBreaker) (now : ℚ) : CircuitBreaker :=
  { cb.transition .CLOSED now with failures := 0, successes_in_half_open := 0 }

/-- CircuitBreaker.get_status (lines 126-133). -/
structure CircuitStatus where
  name : String
  state : String
  failures : ℕ
  time_until_probe : ℚ
deriving DecidableEq, Repr

/-- CircuitBreaker.get_status (lines 126-133): read-only view. -/
def CircuitBreaker.getStatus (cb : CircuitBreaker) (now : ℚ) : CircuitStatus :=
  ⟨cb.name, cb.state.value, cb.failures, round1 (cb.timeUntilProbe now)⟩

/-- One locked critical section on a breaker: the admission check of a call,
the success/failure recording of a call, a manual reset, or a status read. -/
inductive BreakerOp
  | check (now : ℚ)
  | success (now : ℚ)
  | failure (now : ℚ)
  | opReset (now : ℚ)
  | status (now : ℚ)
deriving DecidableEq, Repr

/-- Apply one locked critical section to the breaker state. -/
def CircuitBreaker.applyOp (cb : CircuitBreaker) : BreakerOp → CircuitBreaker
  | .check now => (cb.checkAllowed now).2
  | .success now => cb.recordSuccess now
  | .failure now => cb.recordFailure now
  | .opReset now => cb.reset now
  | .status _ => cb

/-- Run a sequence of locked critical sections. -/
def CircuitBreaker.runOps (cb : CircuitBreaker) (ops : List BreakerOp) :
    CircuitBreaker :=
  ops.foldl CircuitBreaker.applyOp cb

/-- The transition edges named by the specification sentence on
CircuitState: CLOSED to OPEN, OPEN to HALF_OPEN, HALF_OPEN to CLOSED,
HALF_OPEN to OPEN. -/
def claimedEdge (a b : CircuitState) : Prop :=
  (a = .CLOSED ∧ b = .OPEN) ∨ (a = .OPEN ∧ b = .HALF_OPEN) ∨
  (a = .HALF_OPEN ∧ b = .CLOSED) ∨ (a = .HALF_OPEN ∧ b = .OPEN)

instance (a b : CircuitState) : Decidable (claimedEdge a b) := by
  unfold claimedEdge
  infer_instance

/-! ### Sliding window rate limiter (backend/resilience/rate_limiter.py) -/

/-- Replace the binding of a key in an association list, or append it
(dict assignment d[k] = v). -/
def updateAssoc {β : Type} (l : List (String × β)) (k : String) (v : β) :
    List (String × β) :=
  match l with
  | [] => [(k, v)]
  | (k0, v0) :: rest =>
      if k0 = k then (k, v) :: rest else (k0, v0) :: updateAssoc rest k v

/-- The default per-source limits (rate_limiter.py lines 26-30, with the
config.json defaults of _cfg applied). -/
def DEFAULT_LIMITS : List (String × ℕ) :=
  [("voice", 5), ("text", 15), ("telegram", 10)]

/-- SlidingWindowRateLimiter state (lines 41-44): per-source timestamp
deques, per-source limits and per-source window lengths. -/
structure RateLimiter where
  windows : List (String × List ℚ)
  limits : List (String × ℕ)
  window_secs : List (String × ℚ)
deriving DecidableEq, Repr

/-- SlidingWindowRateLimiter.__init__ (lines 41-44). -/
def RateLimiter.init : RateLimiter := ⟨[], DEFAULT_LIMITS, []⟩

/-- SlidingWindowRateLimiter.configure (lines 46-49). -/
def RateLimiter.configure (rl : RateLimiter) (source : String)
    (max_requests : ℕ) (window_sec : ℚ) : RateLimiter :=
  { rl with
    limits := updateAssoc rl.limits source max_requests
    window_secs := updateAssoc rl.window_secs source window_sec }

/-- The info dict returned by check (lines 77-89); retry_after is present
only in the rejection dict. -/
structure RateInfo where
  remaining : ℕ
  retry_after : Option ℚ
  limit : ℕ
  source : String
deriving DecidableEq, Repr

/-- SlidingWindowRateLimiter.check (lines 51-89).  The deque is popped from
the front while the head is older than the cutoff (the source deques are
appended in clock order); on rejection window[0] is read — the headD default
is never reached when the limit is positive, since then the pruned window is
nonempty. -/
def RateLimiter.check (rl : RateLimiter) (source : String) (now : ℚ) :
    (Bool × RateInfo) × RateLimiter :=
  let limit := (rl.limits.lookup source).getD 15
  let window_sec := (rl.window_secs.lookup source).getD 60
  let cutoff := now - window_sec
  let window := (rl.windows.lookup source).getD []
  let pruned := window.dropWhile (fun t => decide (t < cutoff))
  if pruned.length ≥ limit then
    ((false,
      ⟨0, some (round1 (max 0 ((pruned.headD 0 + window_sec) - now))), limit, source⟩),
     { rl with windows := updateAssoc rl.windows source pruned })
  else
    ((true, ⟨limit - (pruned.length + 1), none, limit, source⟩),
     { rl with windows := updateAssoc rl.windows source (pruned ++ [now]) })

/-- SlidingWindowRateLimiter.reset for one source (lines 106-111):
drop the window of that source. -/
def RateLimiter.resetSource (rl : RateLimiter) (source : String) : RateLimiter :=
  { rl with windows := rl.windows.filter (fun p => decide (p.1 ≠ source)) }

/-! ### Cost tracker (backend/resilience/cost_tracker.py) -/

/-- A per-model price row of the PRICING table (per 1M tokens). -/
structure Prices where
  input : ℚ
  output : ℚ
  cache_read : ℚ
  cache_write : ℚ
deriving DecidableEq, Repr

/-- PRICING (cost_tracker.py lines 25-44). -/
def PRICING : List (String × Prices) :=
  [("claude-sonnet-4-5-20250929", ⟨3, 15, 3/10, 375/100⟩),
   ("claude-opus-4-6", ⟨15, 75, 3/2, 1875/100⟩),
   ("claude-haiku-4-5-20251001", ⟨8/10, 4, 8/100, 1⟩)]

/-- _DEFAULT_PRICING (line 46). -/
def DEFAULT_PRICING : Prices := ⟨3, 15, 3/10, 375/100⟩

/-- CostTracker.calculate_cost (lines 87-99). -/
def calculateCost (model : String) (input_tokens output_tokens : ℤ)
    (cache_read cache_creation : ℤ) : ℚ :=
  let prices := (PRICING.lookup model).getD DEFAULT_PRICING
  let regular_input : ℤ := max 0 (input_tokens - cache_read - cache_creation)
  round6 ((regular_input : ℚ) / 1000000 * prices.input
    + (output_tokens : ℚ) / 1000000 * prices.output
    + (cache_read : ℚ) / 1000000 * prices.cache_read
    + (cache_creation : ℚ) / 1000000 * prices.cache_write)

/-- One row of the claude_usage table (lines 69-82). -/
structure UsageRecord where
  timestamp : String
  model : String
  input_tokens : ℤ
  output_tokens : ℤ
  cache_read_tokens : ℤ
  cache_creation_tokens : ℤ
  cost_usd : ℚ
  request_type : String
  summary : String
deriving DecidableEq, Repr

/-- A failed sqlite write (disk or permission error). -/
inductive LedgerWriteError
  | writeFailed
deriving DecidableEq, Repr

/-- CostTracker.log_usage (lines 101-131).  The ledger is the list of table
rows; write_ok tells whether the sqlite INSERT succeeds.  The source wraps
the INSERT in no try/except, so a failing write raises to the caller, which
the embedding renders as Except.error. -/
def logUsage (ledger : List UsageRecord) (write_ok : Bool) (now : String)
    (model : String) (input_tokens output_tokens cache_read cache_creation : ℤ)
    (request_type summary : String) :
    Except LedgerWriteError (List UsageRecord × ℚ) :=
  let cost := calculateCost model input_tokens output_tokens cache_read cache_creation
  if write_ok then
    .ok (ledger ++
      [⟨now, model, input_tokens, output_tokens, cache_read, cache_creation,
        cost, request_type, summary.take 200⟩], cost)
  else
    .error .writeFailed

/-- The sum of cost_usd over the rows selected by timestamp >= since
(sqlite BINARY string comparison is lexicographic, as is String order). -/
def spendSince (since : String) (ledger : List UsageRecord) : ℚ :=
  (ledger.filter (fun r => decide (since ≤ r.timestamp))).foldl
    (fun acc r => acc + r.cost_usd) 0

/-- CostTracker.get_daily_spend (lines 133-142); today is the ISO date of
the current day. -/
def getDailySpend (today : String) (ledger : List UsageRecord) : ℚ :=
  round4 (spendSince today ledger)

/-- CostTracker.get_monthly_spend (lines 144-153); month_start is the ISO
date of the first of the current month. -/
def getMonthlySpend (month_start : String) (ledger : List UsageRecord) : ℚ :=
  round4 (spendSince month_start ledger)

/-- The budget configuration (lines 49-55): daily and monthly USD ceilings
(config defaults 5.00 and 50.00). -/
structure BudgetConfig where
  daily_usd : ℚ
  monthly_usd : ℚ
deriving DecidableEq, Repr

/-- Fixed two-decimal rendering of a nonnegative amount, modelling the
f-string {x:.2f} (half-up on exact rationals). -/
def fmt2 (q : ℚ) : String :=
  let cents := ⌊q * 100 + 1/2⌋
  let frac := cents % 100
  toString (cents / 100) ++ "." ++
    (if frac < 10 then "0" ++ toString frac else toString frac)

/-- CostTracker.can_afford (lines 155-168). -/
def canAfford (cfg : BudgetConfig) (today month_start : String)
    (ledger : List UsageRecord) : Bool × String :=
  let daily := getDailySpend today ledger
  let monthly := getMonthlySpend month_start ledger
  if daily ≥ cfg.daily_usd then
    (false, "Daily budget exhausted: $" ++ fmt2 daily ++ "/$" ++ fmt2 cfg.daily_usd)
  else if monthly ≥ cfg.monthly_usd then
    (false, "Monthly budget exhausted: $" ++ fmt2 monthly ++ "/$" ++ fmt2 cfg.monthly_usd)
  else
    (true, "")

/-! ### Intent router (backend/llm/router.py) -/

/-- RouteDecision (router.py lines 34-43).  tool_args_hint is kept as an
association list of strings; classification_ms is carried but the wall-clock
timing is not modelled (always 0). -/
structure RouteDecision where
  target : String
  confidence : ℚ
  intent_type : String
  reason : String
  tool_hint : String := ""
  tool_args_hint : List (String × String) := []
  classification_ms : ℚ := 0
deriving DecidableEq, Repr

/-- The regex-based pattern matchers of IntentRouter (lines 134-235), taken
as parameters of the embedding: each is a pure predicate on the lowered
text (and the word count where the source consults it).  match_direct_tool
returns (tool name, parsed args, confidence) like _match_direct_tool, whose
confidence is 0.90, or 0.70 with empty args when argument extraction
raises (lines 225-235). -/
structure RuleMatchers where
  is_greeting : String → ℕ → Bool
  match_direct_tool : String → Option (String × List (String × String) × ℚ)
  wants_claude : String → Bool
  is_complex_code : String → Bool
  is_analysis : String → Bool
  is_planning : String → Bool
  is_coding : String → Bool
  is_simple_question : String → ℕ → Bool

/-- The router configuration (lines 23-29): enable flag and the complex
word threshold of cascade step 9 (the simple threshold lives inside
is_simple_question). -/
structure RouterConfig where
  enabled : Bool
  complex_word_threshold : ℕ
deriving DecidableEq, Repr

/-- len(text.split()): whitespace-separated word count. -/
def wordCount (text : String) : ℕ :=
  ((text.split Char.isWhitespace).filter (fun w => w ≠ "")).length

/-- IntentRouter._rule_classify (lines 84-130): the ordered, first-match
rule cascade. -/
def ruleClassify (m : RuleMatchers) (cfg : RouterConfig) (text : String) :
    RouteDecision :=
  let text_lower := text.toLower.trim
  let word_count := wordCount text
  if m.is_greeting text_lower word_count then
    ⟨"ollama", 95/100, "greeting", "Greeting/farewell detected", "", [], 0⟩
  else
    match m.match_direct_tool text_lower with
    | some (name, args, conf) =>
        ⟨"tool_direct", conf, "action", "Direct tool: " ++ name, name, args, 0⟩
    | none =>
        if m.wants_claude text_lower then
          ⟨"claude", 95/100, "analysis", "User explicitly requested Claude", "", [], 0⟩
        else if m.is_complex_code text_lower then
          ⟨"claude", 85/100, "coding", "Complex coding/architecture task", "", [], 0⟩
        else if m.is_analysis text_lower then
          ⟨"claude", 80/100, "analysis", "Analysis/research task", "", [], 0⟩
        else if m.is_planning text_lower then
          ⟨"claude", 80/100, "planning", "Planning/multi-step task", "", [], 0⟩
        else if m.is_coding text_lower then
          ⟨"ollama", 70/100, "coding", "Simple coding task", "", [], 0⟩
        else if m.is_simple_question text_lower word_count then
          ⟨"ollama", 80/100, "question", "Simple question", "", [], 0⟩
        else if word_count > cfg.complex_word_threshold then
          ⟨"claude", 65/100, "analysis",
            "Long query (" ++ toString word_count ++ " words)", "", [], 0⟩
        else
          ⟨"ollama", 50/100, "chitchat", "Default: simple/chitchat", "", [], 0⟩

/-- IntentRouter._gate_claude (lines 239-257).  api_key is the configured
ANTHROPIC_API_KEY (the source tests its falsiness, rendered here as equality
with the empty string); tracker is none when no cost tracker was injected,
otherwise the (allowed, reason) pair its can_afford() returns. -/
def gateClaude (api_key : String) (tracker : Option (Bool × String))
    (decision : RouteDecision) : RouteDecision :=
  if api_key = "" then
    ⟨"ollama", decision.confidence, decision.intent_type,
      "Claude API key not set — falling back to Ollama", "", [], 0⟩
  else
    match tracker with
    | some (can_afford, reason) =>
        if can_afford then decision
        else
          ⟨"ollama", decision.confidence, decision.intent_type,
            "Claude budget exhausted — " ++ reason, "", [], 0⟩
    | none => decision

/-- IntentRouter.classify (lines 60-80), without the stats recording and
wall-clock timing (observability only). -/
def classify (m : RuleMatchers) (cfg : RouterConfig) (api_key : String)
    (tracker : Option (Bool × String)) (text : String) : RouteDecision :=
  if ¬ cfg.enabled then
    ⟨"ollama", 1, "default", "Router disabled", "", [], 0⟩
  else
    let decision := ruleClassify m cfg text
    if decision.target = "claude" then gateClaude api_key tracker decision
    else decision

/-- A concrete matcher assignment under which only the explicit premium
request pattern (router.py lines 173-175) fires. -/
def mAskClaude : RuleMatchers :=
  ⟨fun _ _ => false, fun _ => none, fun _ => true, fun _ => false,
   fun _ => false, fun _ => false, fun _ => false, fun _ _ => false⟩

/-! ### Interaction scheduling (backend/agent.py) -/

/-- AgentState (agent.py lines 34-40). -/
inductive AgentState
  | IDLE
  | LISTENING
  | THINKING
  | EXECUTING
  | SPEAKING
  | ERROR
deriving DecidableEq, Repr

/-- The current state after a sequence of _set_state calls, starting
from s0. -/
def lastState (s0 : AgentState) (tr : List AgentState) : AgentState :=
  tr.foldl (fun _ s => s) s0

/-- Observable outcome of one scheduled turn: the sequence of visible
state changes, the final state, and whether the exception escaped the
turn boundary. -/
structure TurnResult where
  trace : List AgentState
  final : AgentState
  escaped : Bool
deriving DecidableEq, Repr

/-- The locked section of JarvisAgent.handle_text_input (lines 278-287): a
directly submitted text turn.  The handler (_execute_text_input) is
abstracted by the _set_state sequence it performs before returning or
raising; raises tells whether it raises.  On an exception the except clause
sets ERROR, and the finally clause restores IDLE whenever the state is not
already IDLE; the exception is not re-raised. -/
def directTextTurn (s0 : AgentState) (handler_states : List AgentState)
    (raises : Bool) : TurnResult :=
  let after_try := if raises then handler_states ++ [.ERROR] else handler_states
  let cur := lastState s0 after_try
  let trace := if cur ≠ .IDLE then after_try ++ [.IDLE] else after_try
  ⟨trace, lastState s0 trace, false⟩

/-- One drained iteration of JarvisAgent._process_text_queue
(lines 289-308): a queued text turn.  Its except clause only logs — no
ERROR state — and the finally clause restores IDLE; nothing escapes. -/
def queuedTextTurn (s0 : AgentState) (handler_states : List AgentState)
    (raises : Bool) : TurnResult :=
  let after_try := handler_states
  let _ := raises
  let cur := lastState s0 after_try
  let trace := if cur ≠ .IDLE then after_try ++ [.IDLE] else after_try
  ⟨trace, lastState s0 trace, false⟩

/-- JarvisAgent.handle_voice_interaction (lines 194-256): the voice turn.
Its except clause sets ERROR and its finally clause restores IDLE;
the exception is not re-raised. -/
def voiceTurn (s0 : AgentState) (handler_states : List AgentState)
    (raises : Bool) : TurnResult :=
  let after_try := if raises then handler_states ++ [.ERROR] else handler_states
  let cur := lastState s0 after_try
  let trace := if cur ≠ .IDLE then after_try ++ [.IDLE] else after_try
  ⟨trace, lastState s0 trace, false⟩

/-- The queued-branch of JarvisAgent.handle_text_input (lines 258-276),
on the asyncio.Queue(maxsize=5) of line 86: put_nowait succeeds below
capacity, and on QueueFull the oldest entry is popped and the new text
put.  capacity is positive (the source uses 5). -/
def textQueuePut (capacity : ℕ) (queue : List String) (text : String) :
    List String :=
  if queue.length < capacity then queue ++ [text]
  else queue.drop 1 ++ [text]

/-! ### Theorems -/

/-- C1: for a breaker with failure_threshold 3 and cooldown_sec 1, three
consecutive calls whose wrapped function raises take CLOSED to OPEN (still
CLOSED after one and after two); while OPEN before the cooldown every call
raises the open-circuit signal, does not invoke the wrapped function and
leaves the breaker unchanged; once the cooldown has elapsed the next call is
admitted as a probe via HALF_OPEN, a successful probe yields CLOSED with
failure count 0, and a failing probe yields OPEN again. -/
theorem circuit_breaker_lifecycle (t0 t1 t2 t3 tR tP : ℚ) (b : Bool)
    (cb3 : CircuitBreaker)
    (hcb3 : cb3 = ((((CircuitBreaker.init "svc" 3 1 t0).call t1 t1 true).breaker.call
        t2 t2 true).breaker.call t3 t3 true).breaker)
    (hR : tR - t3 < 1) (hP : tP - t3 ≥ 1) :
    ((CircuitBreaker.init "svc" 3 1 t0).call t1 t1 true).breaker.state = .CLOSED ∧
    (((CircuitBreaker.init "svc" 3 1 t0).call t1 t1 true).breaker.call
        t2 t2 true).breaker.state = .CLOSED ∧
    cb3.state = .OPEN ∧ cb3.failures = 3 ∧
    (cb3.call tR tR b).invoked = false ∧
    (cb3.call tR tR b).result = .circuitOpen (max 0 (1 - (tR - t3))) ∧
    (cb3.call tR tR b).breaker = cb3 ∧
    (cb3.checkAllowed tP).1 = true ∧
    (cb3.checkAllowed tP).2.state = .HALF_OPEN ∧
    (cb3.call tP tP false).invoked = true ∧
    (cb3.call tP tP false).breaker.state = .CLOSED ∧
    (cb3.call tP tP false).breaker.failures = 0 ∧
    (cb3.call tP tP true).invoked = true ∧
    (cb3.call tP tP true).breaker.state = .OPEN := by
  have h1 : ((CircuitBreaker.init "svc" 3 1 t0).call t1 t1 true).breaker
      = ⟨"svc", 3, 1, .CLOSED, 1, 0, t1, t0⟩ := by
    simp [CircuitBreaker.init, CircuitBreaker.call, CircuitBreaker.checkAllowed,
      CircuitBreaker.recordFailure, CircuitBreaker.transition]
  have h2 : (((CircuitBreaker.init "svc" 3 1 t0).call t1 t1 true).breaker.call
      t2 t2 true).breaker = ⟨"svc", 3, 1, .CLOSED, 2, 0, t2, t0⟩ := by
    rw [h1]
    simp [CircuitBreaker.call, CircuitBreaker.checkAllowed,
      CircuitBreaker.recordFailure, CircuitBreaker.transition]
  have h3 : cb3 = ⟨"svc", 3, 1, .OPEN, 3, 0, t3, t3⟩ := by
    rw [hcb3, h2]
    simp [CircuitBreaker.call, CircuitBreaker.checkAllowed,
      CircuitBreaker.recordFailure, CircuitBreaker.transition]
  subst h3
  refine ⟨by rw [h1], by rw [h2], rfl, rfl, ?_, ?_, ?_, ?_, ?_, ?_, ?_, ?_, ?_, ?_⟩
  · simp [CircuitBreaker.call, CircuitBreaker.checkAllowed, not_le.mpr hR]
  · simp [CircuitBreaker.call, CircuitBreaker.checkAllowed,
      CircuitBreaker.timeUntilProbe, not_le.mpr hR]
  · simp [CircuitBreaker.call, CircuitBreaker.checkAllowed, not_le.mpr hR]
  · simp [CircuitBreaker.checkAllowed, hP]
  · simp [CircuitBreaker.checkAllowed, CircuitBreaker.transition, hP]
  · simp [CircuitBreaker.call, CircuitBreaker.checkAllowed, hP]
  · simp [CircuitBreaker.call, CircuitBreaker.checkAllowed,
      CircuitBreaker.recordSuccess, CircuitBreaker.transition, hP]
  · simp [CircuitBreaker.call, CircuitBreaker.checkAllowed,
      CircuitBreaker.recordSuccess, CircuitBreaker.transition, hP]
  · simp [CircuitBreaker.call, CircuitBreaker.checkAllowed, hP]
  · simp [CircuitBreaker.call, CircuitBreaker.checkAllowed,
      CircuitBreaker.recordFailure, CircuitBreaker.transition, hP]

/-- Witness for C1 at the concrete schedule 0, 0, 0, 0, rejected retry at
1/2, probe at 1. -/
theorem circuit_breaker_lifecycle_witness :
    ((CircuitBreaker.init "svc" 3 1 0).call 0 0 true).breaker.state = .CLOSED ∧
    (((CircuitBreaker.init "svc" 3 1 0).call 0 0 true).breaker.call
        0 0 true).breaker.state = .CLOSED ∧
    (⟨"svc", 3, 1, .OPEN, 3, 0, 0, 0⟩ : CircuitBreaker).state = .OPEN ∧
    (⟨"svc", 3, 1, .OPEN, 3, 0, 0, 0⟩ : CircuitBreaker).failures = 3 ∧
    ((⟨"svc", 3, 1, .OPEN, 3, 0, 0, 0⟩ : CircuitBreaker).call (1/2) (1/2) true).invoked = false ∧
    ((⟨"svc", 3, 1, .OPEN, 3, 0, 0, 0⟩ : CircuitBreaker).call (1/2) (1/2) true).result
      = .circuitOpen (max 0 (1 - ((1:ℚ)/2 - 0))) ∧
    ((⟨"svc", 3, 1, .OPEN, 3, 0, 0, 0⟩ : CircuitBreaker).call (1/2) (1/2) true).breaker
      = ⟨"svc", 3, 1, .OPEN, 3, 0, 0, 0⟩ ∧
    ((⟨"svc", 3, 1, .OPEN, 3, 0, 0, 0⟩ : CircuitBreaker).checkAllowed 1).1 = true ∧
    ((⟨"svc", 3, 1, .OPEN, 3, 0, 0, 0⟩ : CircuitBreaker).checkAllowed 1).2.state = .HALF_OPEN ∧
    ((⟨"svc", 3, 1, .OPEN, 3, 0, 0, 0⟩ : CircuitBreaker).call 1 1 false).invoked = true ∧
    ((⟨"svc", 3, 1, .OPEN, 3, 0, 0, 0⟩ : CircuitBreaker).call 1 1 false).breaker.state = .CLOSED ∧
    ((⟨"svc", 3, 1, .OPEN, 3, 0, 0, 0⟩ : CircuitBreaker).call 1 1 false).breaker.failures = 0 ∧
    ((⟨"svc", 3, 1, .OPEN, 3, 0, 0, 0⟩ : CircuitBreaker).call 1 1 true).invoked = true ∧
    ((⟨"svc", 3, 1, .OPEN, 3, 0, 0, 0⟩ : CircuitBreaker).call 1 1 true).breaker.state = .OPEN :=
  circuit_breaker_lifecycle 0 0 0 0 (1/2) 1 true ⟨"svc", 3, 1, .OPEN, 3, 0, 0, 0⟩
    (by decide) (by norm_num) (by norm_num)

/-- C5 counterexample: a breaker driven OPEN by three recorded failures is
reachable, and a reset then changes the state OPEN to CLOSED, an edge the
claim does not list among the permitted transitions. -/
theorem circuit_breaker_reset_breaks_claimed_edges :
    ((CircuitBreaker.init "svc" 3 1 0).runOps [.failure 0, .failure 0, .failure 0]).state
        = CircuitState.OPEN ∧
    (((CircuitBreaker.init "svc" 3 1 0).runOps
        [.failure 0, .failure 0, .failure 0]).applyOp (.opReset 0)).state
        = CircuitState.CLOSED ∧
    ¬ claimedEdge .OPEN .CLOSED := by decide

/-- C5 (amended): along every operation on a breaker — admission check,
success or failure recording, status read — a state change follows one of
the edges CLOSED to OPEN, OPEN to HALF_OPEN, HALF_OPEN to CLOSED or
HALF_OPEN to OPEN, except that a reset may force any state to CLOSED. -/
theorem circuit_breaker_transitions_claimed_or_reset (cb : CircuitBreaker)
    (op : BreakerOp) (hstep : (cb.applyOp op).state ≠ cb.state) :
    claimedEdge cb.state (cb.applyOp op).state ∨
    (∃ now, op = .opReset now ∧ (cb.applyOp op).state = .CLOSED) := by
  cases op with
  | check now =>
      left
      cases h : cb.state with
      | CLOSED => simp [CircuitBreaker.applyOp, CircuitBreaker.checkAllowed, h] at hstep
      | OPEN =>
          simp only [CircuitBreaker.applyOp, CircuitBreaker.checkAllowed, h] at hstep ⊢
          split
          · simp [CircuitBreaker.transition, claimedEdge]
          · next hc => simp [hc, h] at hstep
      | HALF_OPEN => simp [CircuitBreaker.applyOp, CircuitBreaker.checkAllowed, h] at hstep
  | success now =>
      left
      cases h : cb.state with
      | CLOSED => simp [CircuitBreaker.applyOp, CircuitBreaker.recordSuccess, h] at hstep
      | OPEN => simp [CircuitBreaker.applyOp, CircuitBreaker.recordSuccess, h] at hstep
      | HALF_OPEN =>
          simp [CircuitBreaker.applyOp, CircuitBreaker.recordSuccess, h,
            CircuitBreaker.transition, claimedEdge]
  | failure now =>
      left
      cases h : cb.state with
      | CLOSED =>
          simp only [CircuitBreaker.applyOp, CircuitBreaker.recordFailure, h] at hstep ⊢
          split
          · simp [CircuitBreaker.transition, claimedEdge]
          · next hc => simp [hc, h] at hstep
      | OPEN => simp [CircuitBreaker.applyOp, CircuitBreaker.recordFailure, h] at hstep
      | HALF_OPEN =>
          simp [CircuitBreaker.applyOp, CircuitBreaker.recordFailure, h,
            CircuitBreaker.transition, claimedEdge]
  | opReset now =>
      right
      exact ⟨now, rfl, by simp [CircuitBreaker.applyOp, CircuitBreaker.reset,
        CircuitBreaker.transition]⟩
  | status now => simp [CircuitBreaker.applyOp] at hstep

/-- Witness for the amended C5 at a concrete state-changing step: an OPEN
breaker past its cooldown transitions on the admission check. -/
theorem circuit_breaker_transitions_claimed_or_reset_witness :
    claimedEdge (⟨"svc", 3, 1, .OPEN, 3, 0, 0, 0⟩ : CircuitBreaker).state
      ((⟨"svc", 3, 1, .OPEN, 3, 0, 0, 0⟩ : CircuitBreaker).applyOp (.check 5)).state ∨
    (∃ now, BreakerOp.check 5 = .opReset now ∧
      ((⟨"svc", 3, 1, .OPEN, 3, 0, 0, 0⟩ : CircuitBreaker).applyOp (.check 5)).state
        = .CLOSED) :=
  circuit_breaker_transitions_claimed_or_reset
    ⟨"svc", 3, 1, .OPEN, 3, 0, 0, 0⟩ (.check 5)
    (by
      norm_num [CircuitBreaker.applyOp, CircuitBreaker.checkAllowed,
        CircuitBreaker.transition]
      decide)

/-- C9: a call rejected while the breaker is OPEN and the cooldown has not
elapsed does not invoke the wrapped function and leaves the breaker record
completely unchanged — in particular the state stays OPEN and the failure
count and last-failure time keep their prior values. -/
theorem circuit_breaker_rejected_call_frame (cb : CircuitBreaker)
    (t_check t_record : ℚ) (b : Bool) (hopen : cb.state = .OPEN)
    (hcool : t_check - cb.last_failure_time < cb.cooldown_sec) :
    (cb.call t_check t_record b).invoked = false ∧
    (cb.call t_check t_record b).breaker = cb ∧
    (∃ r, (cb.call t_check t_record b).result = .circuitOpen r) := by
  have hno : ¬ (t_check - cb.last_failure_time ≥ cb.cooldown_sec) := not_le.mpr hcool
  refine ⟨?_, ?_, ?_⟩ <;>
    simp [CircuitBreaker.call, CircuitBreaker.checkAllowed, hopen, hno]

/-- Witness for C9: a rejected call on a concrete OPEN breaker half way
through its cooldown. -/
theorem circuit_breaker_rejected_call_frame_witness :
    ((⟨"svc", 3, 1, .OPEN, 3, 0, 0, 0⟩ : CircuitBreaker).call (1/2) (1/2) true).invoked
        = false ∧
    ((⟨"svc", 3, 1, .OPEN, 3, 0, 0, 0⟩ : CircuitBreaker).call (1/2) (1/2) true).breaker
        = ⟨"svc", 3, 1, .OPEN, 3, 0, 0, 0⟩ ∧
    (∃ r, ((⟨"svc", 3, 1, .OPEN, 3, 0, 0, 0⟩ : CircuitBreaker).call (1/2) (1/2) true).result
        = .circuitOpen r) :=
  circuit_breaker_rejected_call_frame ⟨"svc", 3, 1, .OPEN, 3, 0, 0, 0⟩
    (1/2) (1/2) true (by decide) (by norm_num)

/-- Looking up the key just written by updateAssoc yields its value. -/
theorem lookup_updateAssoc {β : Type} (l : List (String × β)) (k : String) (v : β) :
    (updateAssoc l k v).lookup k = some v := by
  induction l with
  | nil => simp [updateAssoc, List.lookup]
  | cons hd tl ih =>
      by_cases h : hd.1 = k
      · simp [updateAssoc, h, List.lookup]
      · have hbeq : (k == hd.1) = false := beq_eq_false_iff_ne.mpr (Ne.symm h)
        simp [updateAssoc, h, List.lookup, hbeq, ih]

/-- dropWhile is idempotent. -/
theorem dropWhile_dropWhile {α : Type} (p : α → Bool) (l : List α) :
    (l.dropWhile p).dropWhile p = l.dropWhile p := by
  induction l with
  | nil => simp
  | cons a tl ih =>
      by_cases h : p a
      · simp [List.dropWhile_cons, h, ih]
      · simp [List.dropWhile_cons, h]

/-- round1 preserves nonnegativity. -/
theorem round1_nonneg (q : ℚ) (h : 0 ≤ q) : 0 ≤ round1 q := by
  unfold round1
  have hf : (0 : ℤ) ≤ ⌊q * 10 + 1/2⌋ := Int.le_floor.mpr (by push_cast; linarith)
  have : (0 : ℚ) ≤ (⌊q * 10 + 1/2⌋ : ℤ) := by exact_mod_cast hf
  linarith

/-- Evaluation: configuring source x with limit 3 and window 1. -/
theorem rl_conf_eval : RateLimiter.init.configure "x" 3 1 =
    ⟨[], [("voice", 5), ("text", 15), ("telegram", 10), ("x", 3)], [("x", 1)]⟩ := by
  simp [RateLimiter.init, RateLimiter.configure, DEFAULT_LIMITS, updateAssoc]

/-- Evaluation: first check on an empty window for x. -/
theorem rl_step1 (t1 : ℚ) :
    RateLimiter.check
        ⟨[], [("voice", 5), ("text", 15), ("telegram", 10), ("x", 3)], [("x", 1)]⟩ "x" t1
      = ((true, ⟨2, none, 3, "x"⟩),
         ⟨[("x", [t1])], [("voice", 5), ("text", 15), ("telegram", 10), ("x", 3)],
          [("x", 1)]⟩) := by
  simp [RateLimiter.check, updateAssoc, List.lookup]

/-- Evaluation: second check while the first timestamp is still in the window. -/
theorem rl_step2 (t1 t2 : ℚ) (h : ¬ (t1 < t2 - 1)) :
    RateLimiter.check
        ⟨[("x", [t1])], [("voice", 5), ("text", 15), ("telegram", 10), ("x", 3)],
         [("x", 1)]⟩ "x" t2
      = ((true, ⟨1, none, 3, "x"⟩),
         ⟨[("x", [t1, t2])], [("voice", 5), ("text", 15), ("telegram", 10), ("x", 3)],
          [("x", 1)]⟩) := by
  simp [RateLimiter.check, updateAssoc, List.lookup, h]

/-- Evaluation: third check while the first timestamp is still in the window. -/
theorem rl_step3 (t1 t2 t3 : ℚ) (h : ¬ (t1 < t3 - 1)) :
    RateLimiter.check
        ⟨[("x", [t1, t2])], [("voice", 5), ("text", 15), ("telegram", 10), ("x", 3)],
         [("x", 1)]⟩ "x" t3
      = ((true, ⟨0, none, 3, "x"⟩),
         ⟨[("x", [t1, t2, t3])], [("voice", 5), ("text", 15), ("telegram", 10), ("x", 3)],
          [("x", 1)]⟩) := by
  simp [RateLimiter.check, updateAssoc, List.lookup, h]

/-- Evaluation: fourth check against a full window is rejected and leaves
the window as pruned. -/
theorem rl_step4 (t1 t2 t3 t4 : ℚ) (h : ¬ (t1 < t4 - 1)) :
    RateLimiter.check
        ⟨[("x", [t1, t2, t3])], [("voice", 5), ("text", 15), ("telegram", 10), ("x", 3)],
         [("x", 1)]⟩ "x" t4
      = ((false, ⟨0, some (round1 (max 0 (t1 + 1 - t4))), 3, "x"⟩),
         ⟨[("x", [t1, t2, t3])], [("voice", 5), ("text", 15), ("telegram", 10), ("x", 3)],
          [("x", 1)]⟩) := by
  simp [RateLimiter.check, updateAssoc, List.lookup, h]

/-- Evaluation: a check after all three timestamps expired is allowed. -/
theorem rl_step5 (t1 t2 t3 t5 : ℚ) (h1 : t1 < t5 - 1) (h2 : t2 < t5 - 1)
    (h3 : t3 < t5 - 1) :
    RateLimiter.check
        ⟨[("x", [t1, t2, t3])], [("voice", 5), ("text", 15), ("telegram", 10), ("x", 3)],
         [("x", 1)]⟩ "x" t5
      = ((true, ⟨2, none, 3, "x"⟩),
         ⟨[("x", [t5])], [("voice", 5), ("text", 15), ("telegram", 10), ("x", 3)],
          [("x", 1)]⟩) := by
  simp [RateLimiter.check, updateAssoc, List.lookup, h1, h2, h3]

/-- C3 counterexample: with limit 3 and window 1 for source x, calls at
times 0, 0, 0 and 24/25 — all within one window of the first — the fourth
check is rejected but its reported retry_after is 0, not strictly positive:
the raw remaining time 1/25 rounds to one decimal as 0.0. -/
theorem rate_limiter_fourth_call_retry_after_zero :
    ((RateLimiter.init.configure "x" 3 1).check "x" 0).1.1 = true ∧
    (((RateLimiter.init.configure "x" 3 1).check "x" 0).2.check "x" 0).1.1 = true ∧
    ((((RateLimiter.init.configure "x" 3 1).check "x" 0).2.check "x" 0).2.check
        "x" 0).1.1 = true ∧
    (24/25 : ℚ) < 0 + 1 ∧
    (((((RateLimiter.init.configure "x" 3 1).check "x" 0).2.check "x" 0).2.check
        "x" 0).2.check "x" (24/25)).1.1 = false ∧
    (((((RateLimiter.init.configure "x" 3 1).check "x" 0).2.check "x" 0).2.check
        "x" 0).2.check "x" (24/25)).1.2.retry_after = some 0 := by
  have h1 := rl_step1 (0 : ℚ)
  have h2 := rl_step2 0 0 (by norm_num)
  have h3 := rl_step3 0 0 0 (by norm_num)
  have h4 := rl_step4 0 0 0 (24/25) (by norm_num)
  refine ⟨?_, ?_, ?_, by norm_num, ?_, ?_⟩
  · simp [rl_conf_eval, h1]
  · simp [rl_conf_eval, h1, h2]
  · simp [rl_conf_eval, h1, h2, h3]
  · simp [rl_conf_eval, h1, h2, h3, h4]
  · simp [rl_conf_eval, h1, h2, h3, h4]
    norm_num [round1]

/-- C3 (amended): with limit 3 and window 1 for source x and four calls at
t1 ≤ t2 ≤ t3 ≤ t4 all within one window of the first, the first three
checks are allowed with remaining 2, 1, 0; the fourth is rejected with a
nonnegative reported retry_after — the raw remaining window time
t1 + 1 - t4 is strictly positive but the reported value is rounded to one
decimal and may be 0 — and once the current time passes the window of every
recorded timestamp the next check is allowed again. -/
theorem rate_limiter_window_lifecycle (t1 t2 t3 t4 t5 : ℚ)
    (s1 s2 s3 s4 : (Bool × RateInfo) × RateLimiter)
    (h12 : t1 ≤ t2) (h23 : t2 ≤ t3) (h34 : t3 ≤ t4)
    (hwin : t4 < t1 + 1) (h5 : t3 + 1 < t5)
    (hs1 : s1 = (RateLimiter.init.configure "x" 3 1).check "x" t1)
    (hs2 : s2 = s1.2.check "x" t2)
    (hs3 : s3 = s2.2.check "x" t3)
    (hs4 : s4 = s3.2.check "x" t4) :
    s1.1.1 = true ∧ s1.1.2.remaining = 2 ∧
    s2.1.1 = true ∧ s2.1.2.remaining = 1 ∧
    s3.1.1 = true ∧ s3.1.2.remaining = 0 ∧
    s4.1.1 = false ∧
    s4.1.2.retry_after = some (round1 (max 0 (t1 + 1 - t4))) ∧
    (∃ r, s4.1.2.retry_after = some r ∧ 0 ≤ r) ∧
    0 < t1 + 1 - t4 ∧
    (s4.2.check "x" t5).1.1 = true := by
  have e1 : s1 = ((true, ⟨2, none, 3, "x"⟩),
      ⟨[("x", [t1])], [("voice", 5), ("text", 15), ("telegram", 10), ("x", 3)],
       [("x", 1)]⟩) := by
    rw [hs1, rl_conf_eval, rl_step1]
  have e2 : s2 = ((true, ⟨1, none, 3, "x"⟩),
      ⟨[("x", [t1, t2])], [("voice", 5), ("text", 15), ("telegram", 10), ("x", 3)],
       [("x", 1)]⟩) := by
    rw [hs2, e1]
    exact rl_step2 t1 t2 (by linarith)
  have e3 : s3 = ((true, ⟨0, none, 3, "x"⟩),
      ⟨[("x", [t1, t2, t3])], [("voice", 5), ("text", 15), ("telegram", 10), ("x", 3)],
       [("x", 1)]⟩) := by
    rw [hs3, e2]
    exact rl_step3 t1 t2 t3 (by linarith)
  have e4 : s4 = ((false, ⟨0, some (round1 (max 0 (t1 + 1 - t4))), 3, "x"⟩),
      ⟨[("x", [t1, t2, t3])], [("voice", 5), ("text", 15), ("telegram", 10), ("x", 3)],
       [("x", 1)]⟩) := by
    rw [hs4, e3]
    exact rl_step4 t1 t2 t3 t4 (by linarith)
  have hr : (0 : ℚ) ≤ round1 (max 0 (t1 + 1 - t4)) :=
    round1_nonneg _ (le_max_left 0 _)
  refine ⟨by rw [e1], by rw [e1], by rw [e2], by rw [e2], by rw [e3], by rw [e3],
    by rw [e4], by rw [e4], ⟨round1 (max 0 (t1 + 1 - t4)), by rw [e4], hr⟩,
    by linarith, ?_⟩
  simp [e4, rl_step5 t1 t2 t3 t5 (by linarith) (by linarith) (by linarith)]

/-- Witness for the amended C3 at the schedule 0, 0, 0, 24/25, 5/2. -/
theorem rate_limiter_window_lifecycle_witness :
    ((RateLimiter.init.configure "x" 3 1).check "x" 0).1.1 = true ∧
    ((RateLimiter.init.configure "x" 3 1).check "x" 0).1.2.remaining = 2 ∧
    (((RateLimiter.init.configure "x" 3 1).check "x" 0).2.check "x" 0).1.1 = true ∧
    (((RateLimiter.init.configure "x" 3 1).check "x" 0).2.check "x" 0).1.2.remaining = 1 ∧
    ((((RateLimiter.init.configure "x" 3 1).check "x" 0).2.check "x" 0).2.check
        "x" 0).1.1 = true ∧
    ((((RateLimiter.init.configure "x" 3 1).check "x" 0).2.check "x" 0).2.check
        "x" 0).1.2.remaining = 0 ∧
    (((((RateLimiter.init.configure "x" 3 1).check "x" 0).2.check "x" 0).2.check
        "x" 0).2.check "x" (24/25)).1.1 = false ∧
    (((((RateLimiter.init.configure "x" 3 1).check "x" 0).2.check "x" 0).2.check
        "x" 0).2.check "x" (24/25)).1.2.retry_after
      = some (round1 (max 0 ((0 : ℚ) + 1 - 24/25))) ∧
    (∃ r, (((((RateLimiter.init.configure "x" 3 1).check "x" 0).2.check "x" 0).2.check
        "x" 0).2.check "x" (24/25)).1.2.retry_after = some r ∧ 0 ≤ r) ∧
    (0 : ℚ) < 0 + 1 - 24/25 ∧
    ((((((RateLimiter.init.configure "x" 3 1).check "x" 0).2.check "x" 0).2.check
        "x" 0).2.check "x" (24/25)).2.check "x" (5/2)).1.1 = true :=
  rate_limiter_window_lifecycle 0 0 0 (24/25) (5/2)
    ((RateLimiter.init.configure "x" 3 1).check "x" 0)
    (((RateLimiter.init.configure "x" 3 1).check "x" 0).2.check "x" 0)
    ((((RateLimiter.init.configure "x" 3 1).check "x" 0).2.check "x" 0).2.check "x" 0)
    (((((RateLimiter.init.configure "x" 3 1).check "x" 0).2.check "x" 0).2.check
        "x" 0).2.check "x" (24/25))
    le_rfl le_rfl (by norm_num) (by norm_num) (by norm_num) rfl rfl rfl rfl

/-- C10: a rejected check records no timestamp — the windows map afterwards
holds exactly the pruned prior window for that source, the configured limits
and window lengths are untouched, and an immediately repeated check returns
the same verdict and the same retry_after. -/
theorem rate_limiter_rejected_check_frame (rl : RateLimiter) (source : String)
    (now : ℚ) (hrej : ((rl.check source now).1).1 = false) :
    (rl.check source now).2.windows
      = updateAssoc rl.windows source
          (((rl.windows.lookup source).getD []).dropWhile
            (fun t => decide (t < now - ((rl.window_secs.lookup source).getD 60)))) ∧
    (rl.check source now).2.limits = rl.limits ∧
    (rl.check source now).2.window_secs = rl.window_secs ∧
    ((rl.check source now).2.check source now).1 = (rl.check source now).1 := by
  by_cases hc : (((rl.windows.lookup source).getD []).dropWhile
      (fun t => decide (t < now - ((rl.window_secs.lookup source).getD 60)))).length
      ≥ (rl.limits.lookup source).getD 15
  · refine ⟨?_, ?_, ?_, ?_⟩
    · simp [RateLimiter.check, hc]
    · simp [RateLimiter.check, hc]
    · simp [RateLimiter.check, hc]
    · simp [RateLimiter.check, hc, lookup_updateAssoc, dropWhile_dropWhile]
  · simp [RateLimiter.check, hc] at hrej

/-- Witness for C10: a full window for source x rejects a check half way
through the window. -/
theorem rate_limiter_rejected_check_frame_witness :
    (RateLimiter.check ⟨[("x", [0, 0, 0])], [("x", 3)], [("x", 1)]⟩ "x" (1/2)).2.windows
      = updateAssoc [("x", [0, 0, 0])] "x"
          (((([(("x" : String), [(0 : ℚ), 0, 0])].lookup "x").getD []).dropWhile
            (fun t => decide (t < 1/2 - (([(("x" : String), (1 : ℚ))].lookup "x").getD 60))))) ∧
    (RateLimiter.check ⟨[("x", [0, 0, 0])], [("x", 3)], [("x", 1)]⟩ "x" (1/2)).2.limits
      = [("x", 3)] ∧
    (RateLimiter.check ⟨[("x", [0, 0, 0])], [("x", 3)], [("x", 1)]⟩ "x" (1/2)).2.window_secs
      = [("x", 1)] ∧
    ((RateLimiter.check ⟨[("x", [0, 0, 0])], [("x", 3)], [("x", 1)]⟩ "x" (1/2)).2.check
        "x" (1/2)).1
      = (RateLimiter.check ⟨[("x", [0, 0, 0])], [("x", 3)], [("x", 1)]⟩ "x" (1/2)).1 :=
  rate_limiter_rejected_check_frame ⟨[("x", [0, 0, 0])], [("x", 3)], [("x", 1)]⟩ "x" (1/2)
    (by simp [RateLimiter.check, List.lookup]; norm_num)

/-- C2: whenever the rule cascade selects the premium tier (target claude)
while the router is enabled, a missing API key or a cost tracker reporting
can_afford false makes classify return the fast tier (target ollama) with
the intent_type of the cascade decision preserved and a reason naming the
cause; consequently classify never returns target claude for any input when
the key is missing or the budget ceiling is reached. -/
theorem router_budget_gate (m : RuleMatchers) (cfg : RouterConfig) (api_key : String)
    (tracker : Option (Bool × String)) (text : String)
    (henabled : cfg.enabled = true)
    (hclaude : (ruleClassify m cfg text).target = "claude")
    (hblock : api_key = "" ∨ ∃ r, tracker = some (false, r)) :
    (classify m cfg api_key tracker text).target = "ollama" ∧
    (classify m cfg api_key tracker text).intent_type
      = (ruleClassify m cfg text).intent_type ∧
    (api_key = "" →
      (classify m cfg api_key tracker text).reason
        = "Claude API key not set — falling back to Ollama") ∧
    (∀ r, api_key ≠ "" → tracker = some (false, r) →
      (classify m cfg api_key tracker text).reason = "Claude budget exhausted — " ++ r) ∧
    (∀ other, (classify m cfg api_key tracker other).target ≠ "claude") := by
  have hcl : classify m cfg api_key tracker text
      = gateClaude api_key tracker (ruleClassify m cfg text) := by
    simp [classify, henabled, hclaude]
  have hg : ∀ d : RouteDecision, (gateClaude api_key tracker d).target = "ollama" ∧
      (gateClaude api_key tracker d).intent_type = d.intent_type := by
    intro d
    rcases hblock with hkey | ⟨r, htr⟩
    · simp [gateClaude, hkey]
    · by_cases hkey : api_key = ""
      · simp [gateClaude, hkey]
      · simp [gateClaude, hkey, htr]
  refine ⟨by rw [hcl]; exact (hg _).1, by rw [hcl]; exact (hg _).2, ?_, ?_, ?_⟩
  · intro hkey
    rw [hcl]
    simp [gateClaude, hkey]
  · intro r hkey htr
    rw [hcl]
    simp [gateClaude, hkey, htr]
  · intro other
    by_cases hoc : (ruleClassify m cfg other).target = "claude"
    · have hco : classify m cfg api_key tracker other
          = gateClaude api_key tracker (ruleClassify m cfg other) := by
        simp [classify, henabled, hoc]
      rw [hco, (hg _).1]
      decide
    · have hco : classify m cfg api_key tracker other = ruleClassify m cfg other := by
        simp [classify, henabled, hoc]
      rw [hco]
      exact hoc

/-- Witness for C2: under the matchers where only the explicit premium
request fires and an empty API key, the decision is downgraded. -/
theorem router_budget_gate_witness :
    (classify mAskClaude ⟨true, 80⟩ "" none "ask claude").target = "ollama" ∧
    (classify mAskClaude ⟨true, 80⟩ "" none "ask claude").intent_type
      = (ruleClassify mAskClaude ⟨true, 80⟩ "ask claude").intent_type ∧
    ((("" : String) = "") →
      (classify mAskClaude ⟨true, 80⟩ "" none "ask claude").reason
        = "Claude API key not set — falling back to Ollama") ∧
    (∀ r, ("" : String) ≠ "" → (none : Option (Bool × String)) = some (false, r) →
      (classify mAskClaude ⟨true, 80⟩ "" none "ask claude").reason
        = "Claude budget exhausted — " ++ r) ∧
    (∀ other, (classify mAskClaude ⟨true, 80⟩ "" none other).target ≠ "claude") :=
  router_budget_gate mAskClaude ⟨true, 80⟩ "" none "ask claude" rfl
    (by simp [ruleClassify, mAskClaude]) (Or.inl rfl)

/-- round4 does not drop below any bound that is a multiple of 1/10000. -/
theorem round4_ge (n : ℤ) (x : ℚ) (h : (n : ℚ)/10000 ≤ x) :
    (n : ℚ)/10000 ≤ round4 x := by
  unfold round4
  have h1 : (n : ℚ) ≤ x * 10000 := by
    rw [div_le_iff₀ (by norm_num : (0:ℚ) < 10000)] at h
    exact h
  have h3 : n ≤ ⌊x * 10000 + 1/2⌋ := Int.le_floor.mpr (by linarith)
  have h4 : (n : ℚ) ≤ ((⌊x * 10000 + 1/2⌋ : ℤ) : ℚ) := by exact_mod_cast h3
  exact (div_le_div_iff_of_pos_right (by norm_num : (0:ℚ) < 10000)).mpr h4

/-- C4: with an empty ledger can_afford returns (true, empty reason); when
the cumulative recorded cost of the current day meets or exceeds the
configured daily ceiling (a dollar amount with at most four decimals),
can_afford returns false with a reason that contains the word exhausted and
the formatted daily total. -/
theorem cost_tracker_budget_exhaustion (cfg : BudgetConfig) (today month_start : String)
    (ledger : List UsageRecord) (n : ℤ)
    (hd : 0 < cfg.daily_usd) (hm : 0 < cfg.monthly_usd)
    (hq : cfg.daily_usd = (n : ℚ) / 10000)
    (hsum : cfg.daily_usd ≤ spendSince today ledger) :
    canAfford cfg today month_start [] = (true, "") ∧
    (canAfford cfg today month_start ledger).1 = false ∧
    (canAfford cfg today month_start ledger).2
      = "Daily budget exhausted: $" ++ fmt2 (getDailySpend today ledger) ++ "/$"
          ++ fmt2 cfg.daily_usd ∧
    (∃ a b, (canAfford cfg today month_start ledger).2 = a ++ "exhausted" ++ b) ∧
    (∃ a b, (canAfford cfg today month_start ledger).2
        = a ++ fmt2 (getDailySpend today ledger) ++ b) := by
  have hdaily : cfg.daily_usd ≤ getDailySpend today ledger := by
    unfold getDailySpend
    rw [hq] at hsum ⊢
    exact round4_ge n _ hsum
  have hcan : canAfford cfg today month_start ledger
      = (false, "Daily budget exhausted: $" ++ fmt2 (getDailySpend today ledger) ++ "/$"
          ++ fmt2 cfg.daily_usd) := by
    unfold canAfford
    rw [if_pos hdaily]
  have hkey : ∀ F G : String, "Daily budget exhausted: $" ++ F ++ "/$" ++ G
      = "Daily budget " ++ "exhausted" ++ (": $" ++ (F ++ ("/$" ++ G))) := by
    intro F G
    simp only [← String.append_assoc]
    rfl
  have hkey2 : ∀ F G : String, "Daily budget exhausted: $" ++ F ++ "/$" ++ G
      = "Daily budget exhausted: $" ++ F ++ ("/$" ++ G) := by
    intro F G
    simp only [← String.append_assoc]
  refine ⟨?_, by rw [hcan], by rw [hcan], ?_, ?_⟩
  · have hz1 : getDailySpend today ([] : List UsageRecord) = 0 := by
      norm_num [getDailySpend, spendSince, round4]
    have hz2 : getMonthlySpend month_start ([] : List UsageRecord) = 0 := by
      norm_num [getMonthlySpend, spendSince, round4]
    unfold canAfford
    rw [hz1, hz2, if_neg (not_le.mpr hd), if_neg (not_le.mpr hm)]
  · exact ⟨"Daily budget ",
      ": $" ++ (fmt2 (getDailySpend today ledger) ++ ("/$" ++ fmt2 cfg.daily_usd)),
      by rw [hcan]; exact hkey _ _⟩
  · exact ⟨"Daily budget exhausted: $", "/$" ++ fmt2 cfg.daily_usd,
      by rw [hcan]; exact hkey2 _ _⟩

/-- Witness for C4: default ceilings 5 and 50 dollars, one six-dollar entry
logged today. -/
theorem cost_tracker_budget_exhaustion_witness :
    canAfford ⟨5, 50⟩ "2026-10-12" "2026-10-01" [] = (true, "") ∧
    (canAfford ⟨5, 50⟩ "2026-10-12" "2026-10-01"
        [⟨"2026-10-12", "claude-opus-4-6", 0, 0, 0, 0, 6, "sync", ""⟩]).1 = false ∧
    (canAfford ⟨5, 50⟩ "2026-10-12" "2026-10-01"
        [⟨"2026-10-12", "claude-opus-4-6", 0, 0, 0, 0, 6, "sync", ""⟩]).2
      = "Daily budget exhausted: $"
          ++ fmt2 (getDailySpend "2026-10-12"
              [⟨"2026-10-12", "claude-opus-4-6", 0, 0, 0, 0, 6, "sync", ""⟩])
          ++ "/$" ++ fmt2 (5 : ℚ) ∧
    (∃ a b, (canAfford ⟨5, 50⟩ "2026-10-12" "2026-10-01"
        [⟨"2026-10-12", "claude-opus-4-6", 0, 0, 0, 0, 6, "sync", ""⟩]).2
      = a ++ "exhausted" ++ b) ∧
    (∃ a b, (canAfford ⟨5, 50⟩ "2026-10-12" "2026-10-01"
        [⟨"2026-10-12", "claude-opus-4-6", 0, 0, 0, 0, 6, "sync", ""⟩]).2
      = a ++ fmt2 (getDailySpend "2026-10-12"
          [⟨"2026-10-12", "claude-opus-4-6", 0, 0, 0, 0, 6, "sync", ""⟩]) ++ b) :=
  cost_tracker_budget_exhaustion ⟨5, 50⟩ "2026-10-12" "2026-10-01"
    [⟨"2026-10-12", "claude-opus-4-6", 0, 0, 0, 0, 6, "sync", ""⟩] 50000
    (by norm_num) (by norm_num) (by norm_num)
    (by
      have hts : decide (("2026-10-12" : String) ≤ "2026-10-12") = true :=
        decide_eq_true le_rfl
      simp [spendSince, List.filter, hts]
      norm_num)

/-- C7: evaluating log_usage at an input whose underlying ledger write
fails: the failure is not swallowed — it propagates to the caller.  The
source (cost_tracker.py lines 101-131) wraps the sqlite INSERT in no
try/except. -/
theorem cost_tracker_log_usage_write_failure :
    logUsage [] false "2026-10-12T00:00:00" "claude-sonnet-4-5-20250929" 1000 500 0 0
      "sync" "" = .error .writeFailed := rfl

/-- The current state after appending one _set_state call. -/
theorem lastState_append_single (s0 : AgentState) (l : List AgentState) (x : AgentState) :
    lastState s0 (l ++ [x]) = x := by
  simp [lastState, List.foldl_append]

/-- The current state after appending two _set_state calls. -/
theorem lastState_append_pair (s0 : AgentState) (l : List AgentState) (x y : AgentState) :
    lastState s0 (l ++ [x, y]) = y := by
  simp [lastState, List.foldl_append]

/-- C6 counterexample: a queued text turn whose handler raises after setting
THINKING is restored to IDLE and swallows the exception, but the visible
state never transitions to ERROR — the drain task logs the exception
without setting the ERROR state. -/
theorem scheduler_queued_turn_no_error :
    (queuedTextTurn .IDLE [.THINKING] true).escaped = false ∧
    (queuedTextTurn .IDLE [.THINKING] true).final = .IDLE ∧
    AgentState.ERROR ∉ (queuedTextTurn .IDLE [.THINKING] true).trace := by decide

/-- C6 (amended): for a raising handler, a directly submitted text turn and
a voice turn transition the visible state to ERROR and finish at IDLE with
the exception swallowed; a queued text turn also swallows the exception and
finishes at IDLE, but without the ERROR transition. -/
theorem scheduler_turn_error_handling (s0 : AgentState) (hs : List AgentState) :
    (directTextTurn s0 hs true).escaped = false ∧
    AgentState.ERROR ∈ (directTextTurn s0 hs true).trace ∧
    (directTextTurn s0 hs true).final = .IDLE ∧
    (voiceTurn s0 hs true).escaped = false ∧
    AgentState.ERROR ∈ (voiceTurn s0 hs true).trace ∧
    (voiceTurn s0 hs true).final = .IDLE ∧
    (queuedTextTurn s0 hs true).escaped = false ∧
    (queuedTextTurn s0 hs true).final = .IDLE := by
  have hdir : ∀ f : AgentState → List AgentState → Bool → TurnResult,
      f = directTextTurn ∨ f = voiceTurn →
      (f s0 hs true).escaped = false ∧ AgentState.ERROR ∈ (f s0 hs true).trace ∧
      (f s0 hs true).final = .IDLE := by
    rintro f (rfl | rfl) <;>
      refine ⟨rfl, ?_, ?_⟩ <;>
        simp [directTextTurn, voiceTurn, lastState_append_single, lastState_append_pair]
  obtain ⟨d1, d2, d3⟩ := hdir directTextTurn (Or.inl rfl)
  obtain ⟨v1, v2, v3⟩ := hdir voiceTurn (Or.inr rfl)
  refine ⟨d1, d2, d3, v1, v2, v3, rfl, ?_⟩
  by_cases h : lastState s0 hs = .IDLE
  · simp [queuedTextTurn, h]
  · simp [queuedTextTurn, h, lastState_append_single]

/-- C8: submitting text while the queue of capacity 5 is full evicts the
oldest entry and appends the new one: the result is exactly the old queue
without its head plus the new text at the back, it still holds exactly 5
entries, the newest submission is among them, and the evicted oldest entry
(when distinct from the remaining entries and the new text) is not. -/
theorem scheduler_queue_overflow (queue : List String) (text : String)
    (hfull : queue.length = 5) :
    textQueuePut 5 queue text = queue.drop 1 ++ [text] ∧
    (textQueuePut 5 queue text).length = 5 ∧
    text ∈ textQueuePut 5 queue text ∧
    (∀ h, queue.head? = some h → h ∉ queue.drop 1 → h ≠ text →
      h ∉ textQueuePut 5 queue text) := by
  have hput : textQueuePut 5 queue text = queue.drop 1 ++ [text] := by
    unfold textQueuePut
    rw [if_neg (by omega)]
  refine ⟨hput, ?_, ?_, ?_⟩
  · rw [hput]
    simp [hfull]
  · rw [hput]
    simp
  · intro h hh hnd hne
    rw [hput]
    simp only [List.mem_append, List.mem_singleton]
    rintro (hc | hc)
    · exact hnd hc
    · exact hne hc

/-- Witness for C8: a full queue of five distinct entries receives a sixth. -/
theorem scheduler_queue_overflow_witness :
    textQueuePut 5 ["a", "b", "c", "d", "e"] "f"
      = ["a", "b", "c", "d", "e"].drop 1 ++ ["f"] ∧
    (textQueuePut 5 ["a", "b", "c", "d", "e"] "f").length = 5 ∧
    "f" ∈ textQueuePut 5 ["a", "b", "c", "d", "e"] "f" ∧
    (∀ h, ["a", "b", "c", "d", "e"].head? = some h →
      h ∉ ["a", "b", "c", "d", "e"].drop 1 → h ≠ "f" →
      h ∉ textQueuePut 5 ["a", "b", "c", "d", "e"] "f") :=
  scheduler_queue_overflow ["a", "b", "c", "d", "e"] "f" rfl

end Jarvis
